import Mathlib

/-!
Verification of the Obolus challenge-response MFA protocol core.

The definitions below are a shallow embedding of the Python sources:
  - src/core/shared.py   (parse_challenge, format_message)
  - src/core/sign.py     (sign_challenge message construction)
  - src/core/verify.py   (parse_response, verify_response, load_public_key)
  - src/server-challenge.py (MfaServer.verify_response, generate_challenge)

Modelling conventions:
  - A Python timestamp string is abstracted by its datetime.fromisoformat
    outcome: unparseable, or a parsed datetime that is either offset-naive
    or offset-aware with an instant measured in integer seconds.  Ordering
    a naive against an aware datetime raises TypeError in Python; the
    model's comparison returns that error.
  - Exceptions are explicit Except values (PyErr distinguishes ValueError,
    TypeError and generic Exception, the classes the code branches on).
  - Ed25519 signature checking is abstracted by a boolean-valued function
    from signature bytes and message bytes (the public key); base64
    decoding of a signature field is abstracted by its outcome.
  - message.encode() is modelled by an explicit UTF-8 encoder on the
    string's characters, so message equality claims are byte-level.
-/

/-- UTF-8 encoding of a single character (by its Unicode code point). -/
def utf8Char (c : Char) : List Nat :=
  if c.toNat < 128 then [c.toNat]
  else if c.toNat < 2048 then [192 + c.toNat / 64, 128 + c.toNat % 64]
  else if c.toNat < 65536 then
    [224 + c.toNat / 4096, 128 + (c.toNat / 64) % 64, 128 + c.toNat % 64]
  else
    [240 + c.toNat / 262144, 128 + (c.toNat / 4096) % 64, 128 + (c.toNat / 64) % 64,
      128 + c.toNat % 64]

/-- UTF-8 encoding of a list of characters. -/
def utf8List : List Char → List Nat
  | [] => []
  | c :: cs => utf8Char c ++ utf8List cs

/-- UTF-8 encoding of a string, i.e. Python str.encode(). -/
def utf8 (s : String) : List Nat := utf8List s.data

theorem utf8Char_ne_nil (c : Char) : utf8Char c ≠ [] := by
  unfold utf8Char
  split_ifs <;> simp

theorem char_toNat_inj {c d : Char} (h : c.toNat = d.toNat) : c = d :=
  Char.eq_of_val_eq (UInt32.ext h)

theorem utf8Char_append_inj {c d : Char} {x y : List Nat}
    (h : utf8Char c ++ x = utf8Char d ++ y) : c = d ∧ x = y := by
  unfold utf8Char at h
  split_ifs at h <;>
    simp only [List.cons_append, List.nil_append, List.cons.injEq] at h
  all_goals
    refine ⟨char_toNat_inj (by omega), ?_⟩
    first
      | exact h.2
      | exact h.2.2
      | exact h.2.2.2
      | exact h.2.2.2.2
      | (exfalso; omega)

theorem utf8List_inj : ∀ {s t : List Char}, utf8List s = utf8List t → s = t
  | [], [], _ => rfl
  | [], c :: _, h => by
      exact absurd h.symm (by simp [utf8List, List.append_eq_nil, utf8Char_ne_nil c])
  | c :: _, [], h => by
      exact absurd h (by simp [utf8List, List.append_eq_nil, utf8Char_ne_nil c])
  | c :: cs, d :: ds, h => by
      obtain ⟨hcd, htail⟩ := utf8Char_append_inj (by simpa [utf8List] using h)
      have := utf8List_inj htail
      simp [hcd, this]

theorem utf8_inj {s t : String} (h : utf8 s = utf8 t) : s = t := by
  cases s with
  | mk sd =>
    cases t with
    | mk td =>
      have : sd = td := utf8List_inj h
      simp [this]

/-- Python exception classes the modelled code distinguishes: ValueError
(caught by the narrow handlers), TypeError (raised by ordering comparisons
between offset-naive and offset-aware datetimes, caught only by catch-all
handlers), and generic Exception (key-loading failures). -/
inductive PyErr
  | valueError (msg : String)
  | typeError (msg : String)
  | exc (msg : String)
deriving DecidableEq, Repr

/-- The message text of an exception, as interpolated by f-strings. -/
def pyMsg : PyErr → String
  | .valueError m => m
  | .typeError m => m
  | .exc m => m

/-- A parsed datetime: offset-naive or offset-aware, with its instant in
integer seconds.  datetime.utcnow() is naive; datetime.now(timezone.utc)
and any fromisoformat result whose string carries an offset are aware. -/
inductive Dt
  | naive (t : Int)
  | aware (t : Int)
deriving DecidableEq, Repr

/-- A timestamp string, abstracted by its datetime.fromisoformat outcome:
not parseable at all, or parseable to a (naive or aware) datetime. -/
inductive TsStr
  | invalid
  | val (d : Dt)
deriving DecidableEq, Repr

/-- datetime.fromisoformat: raises ValueError on an unparseable string. -/
def fromisoformat : TsStr → Except PyErr Dt
  | .invalid => .error (.valueError "Invalid isoformat string")
  | .val d => .ok d

/-- Python datetime ordering `a > b`: comparing an offset-naive with an
offset-aware datetime raises TypeError. -/
def dtGt : Dt → Dt → Except PyErr Bool
  | .naive a, .naive b => .ok (decide (a > b))
  | .aware a, .aware b => .ok (decide (a > b))
  | _, _ => .error (.typeError "cant compare offset-naive and offset-aware datetimes")

/-- Python datetime ordering `a < b` with the same TypeError behaviour. -/
def dtLt : Dt → Dt → Except PyErr Bool
  | .naive a, .naive b => .ok (decide (a < b))
  | .aware a, .aware b => .ok (decide (a < b))
  | _, _ => .error (.typeError "cant compare offset-naive and offset-aware datetimes")

/-- src/core/shared.py format_message: validates the response action, then
returns the UTF-8 bytes of the joined message string. -/
def format_message (challenge_id action nonce response_action : String) :
    Except PyErr (List Nat) :=
  if response_action = "approved" ∨ response_action = "rejected" then
    .ok (utf8 (challenge_id ++ ":" ++ action ++ ":" ++ nonce ++ ":" ++ response_action))
  else
    .error (.valueError "Response action must be approved or rejected")

/-- The message construction performed by sign_challenge (src/core/sign.py):
it calls the shared format_message on the challenge fields and the decision. -/
def sign_message (challenge_id action nonce response_action : String) :
    Except PyErr (List Nat) :=
  format_message challenge_id action nonce response_action

/-- The message construction performed by verify_response (src/core/verify.py):
it calls the same shared format_message on the same four fields. -/
def verify_message (challenge_id action nonce response_action : String) :
    Except PyErr (List Nat) :=
  format_message challenge_id action nonce response_action

/-- A challenge dictionary: each required key is present (some) or absent
(none).  id, action and nonce are strings; the two timestamp fields are
abstracted by their parse outcome. -/
structure CMap where
  id : Option String
  action : Option String
  timestamp : Option TsStr
  nonce : Option String
  expires_at : Option TsStr
deriving DecidableEq, Repr

/-- The outcome of base64.b64decode on a signature field: an exception, or
the decoded raw bytes. -/
inductive SigF
  | bad
  | ok (bytes : List Nat)
deriving DecidableEq, Repr

/-- A response dictionary, with the same presence/absence convention. -/
structure RMap where
  id : Option String
  response : Option String
  timestamp : Option TsStr
  signature : Option SigF
deriving DecidableEq, Repr

/-- src/core/shared.py parse_challenge: checks the five required fields in
order, then inside a try block parses expires_at (a ValueError is re-raised
as "Invalid expires_at format") and evaluates the expiry warning comparison
now > expires_at with an aware now; a TypeError from that comparison (naive
expires_at) is not caught and propagates.  On success the challenge
dictionary itself is returned. -/
def parse_challenge (now : Int) (c : CMap) : Except PyErr CMap :=
  if c.id.isNone then .error (.valueError "Challenge missing required field: id")
  else if c.action.isNone then .error (.valueError "Challenge missing required field: action")
  else if c.timestamp.isNone then
    .error (.valueError "Challenge missing required field: timestamp")
  else if c.nonce.isNone then .error (.valueError "Challenge missing required field: nonce")
  else if c.expires_at.isNone then
    .error (.valueError "Challenge missing required field: expires_at")
  else
    match fromisoformat (c.expires_at.getD TsStr.invalid) with
    | .error e => .error (.valueError ("Invalid expires_at format: " ++ pyMsg e))
    | .ok ea =>
      match dtGt (Dt.aware now) ea with
      | .error e => .error e
      | .ok _ => .ok c

/-- src/core/verify.py parse_response: checks the four required fields in
order, then validates the response action; returns the dictionary itself. -/
def parse_response (r : RMap) : Except PyErr RMap :=
  if r.id.isNone then .error (.valueError "Response missing required field: id")
  else if r.response.isNone then .error (.valueError "Response missing required field: response")
  else if r.timestamp.isNone then
    .error (.valueError "Response missing required field: timestamp")
  else if r.signature.isNone then
    .error (.valueError "Response missing required field: signature")
  else if r.response.getD "" = "approved" ∨ r.response.getD "" = "rejected" then .ok r
  else .error (.valueError "Response action must be approved or rejected")

/-- The clock-drift tolerance of src/core/verify.py: timedelta(minutes=5),
in seconds. -/
def TOLERANCE : Int := 300

/-- An Ed25519 public key, abstracted by its verification function on
(signature bytes, message bytes): public_key.verify succeeds or raises
InvalidSignature. -/
def PK : Type := List Nat → List Nat → Bool

/-- src/core/verify.py load_public_key: wraps any loading failure in
Exception("Error loading public key: ...").  The key source is the outcome
of reading and deserializing the key file. -/
def load_public_key (src : Except String PK) : Except PyErr PK :=
  match src with
  | .ok k => .ok k
  | .error m => .error (.exc ("Error loading public key: " ++ m))

/-- Outcome of the timestamp-validation block of verify_response. -/
inductive TsCheck
  | pass
  | fail (msg : String)
  | raise (e : PyErr)
deriving DecidableEq, Repr

/-- The inner try block of src/core/verify.py verify_response: parse both
timestamps, reject a response older than the challenge, reject a response
more than TOLERANCE in the future of now.  Its except clause catches only
ValueError (reported as "Invalid timestamp format"); a TypeError from a
naive/aware comparison propagates. -/
def timestampChecks (cts rts : TsStr) (now : Int) : TsCheck :=
  match fromisoformat cts with
  | .error e => .fail ("Invalid timestamp format: " ++ pyMsg e)
  | .ok ct =>
    match fromisoformat rts with
    | .error e => .fail ("Invalid timestamp format: " ++ pyMsg e)
    | .ok rt =>
      match dtLt rt ct with
      | .error e => .raise e
      | .ok true => .fail "Response timestamp predates challenge creation"
      | .ok false =>
        match dtGt rt (Dt.aware (now + TOLERANCE)) with
        | .error e => .raise e
        | .ok true => .fail "Response timestamp is from the future"
        | .ok false => .pass

/-- The body of src/core/verify.py verify_response inside its outer try
block, in source order: parse challenge, parse response, id check, the
timestamp block, expiry check, key loading, message construction, signature
decoding, cryptographic verification.  An .error is an exception reaching
the outer catch-all handler.  Field accesses challenge[...] / response[...]
appear as .getD applications whose defaults are unreachable after a
successful parse. -/
def verifyBody (now : Int) (keySrc : Except String PK) (c : CMap) (r : RMap) :
    Except PyErr (Bool × String) :=
  match parse_challenge now c with
  | .error e => .error e
  | .ok ch =>
    match parse_response r with
    | .error e => .error e
    | .ok resp =>
      if resp.id.getD "" ≠ ch.id.getD "" then
        .ok (false, "Response ID does not match challenge ID")
      else
        match timestampChecks (ch.timestamp.getD .invalid) (resp.timestamp.getD .invalid) now with
        | .fail m => .ok (false, m)
        | .raise e => .error e
        | .pass =>
          match fromisoformat (ch.expires_at.getD .invalid) with
          | .error e => .error e
          | .ok ea =>
            match dtGt (Dt.aware now) ea with
            | .error e => .error e
            | .ok true => .ok (false, "EXPIRED")
            | .ok false =>
              match load_public_key keySrc with
              | .error e => .error e
              | .ok pk =>
                match format_message (ch.id.getD "") (ch.action.getD "")
                    (ch.nonce.getD "") (resp.response.getD "") with
                | .error e => .error e
                | .ok msg =>
                  match resp.signature.getD .bad with
                  | .bad => .ok (false, "Invalid signature encoding: Invalid base64")
                  | .ok sb =>
                    if pk sb msg then .ok (true, resp.response.getD "")
                    else .ok (false, "Invalid signature")

/-- src/core/verify.py verify_response: the whole body runs under a
catch-all except handler that turns any exception into
(False, "Verification error: ..."). -/
def verify_response (now : Int) (keySrc : Except String PK) (c : CMap) (r : RMap) :
    Bool × String :=
  match verifyBody now keySrc c r with
  | .ok res => res
  | .error e => (false, "Verification error: " ++ pyMsg e)

/-- Challenge status values stored by src/server-challenge.py. -/
inductive Status
  | pending
  | approved
  | rejected
  | expired
deriving DecidableEq, Repr

/-- The status text as stored in the challenges table. -/
def Status.str : Status → String
  | .pending => "pending"
  | .approved => "approved"
  | .rejected => "rejected"
  | .expired => "expired"

/-- A response JSON object as read by the server with dict.get: every field
may be absent (None). -/
structure SResp where
  id : Option String
  response : Option String
  signature : Option SigF
deriving DecidableEq, Repr

/-- Python str() of an optional string: None renders as "None" inside an
f-string. -/
def pyStr : Option String → String
  | none => "None"
  | some s => s

/-- A challenges-table row for one challenge id, as created by
MfaServer.generate_challenge and updated by MfaServer.verify_response.
expiresS is the fromisoformat outcome of the stored expires_at string after
its "Z" suffix is replaced by "+00:00" (for rows written by
generate_challenge this is an offset-aware datetime). -/
structure Row where
  action : String
  nonce : String
  expiresS : TsStr
  status : Status
  response : Option SResp
  responseTs : Option Int
deriving DecidableEq, Repr

/-- A row as inserted by MfaServer.generate_challenge at naive-utcnow
instant createdAt: status pending, expiry 60 seconds later, stored as a
naive isoformat with a "Z" appended, hence parsed back offset-aware. -/
def generatedRow (action nonce : String) (createdAt : Int) : Row :=
  { action := action
    nonce := nonce
    expiresS := TsStr.val (Dt.aware (createdAt + 60))
    status := Status.pending
    response := none
    responseTs := none }

/-- src/server-challenge.py MfaServer.verify_response for one challenge id.
State passing: the first component of the result is the challenges row
after the call (audit_log writes are omitted: they never touch the
challenges table or the return value).  The second component is the
returned pair, or .error e for an exception escaping to the caller.
Sequence, in source order: row lookup; already-terminal check; expiry check
comparing naive datetime.utcnow() against the aware parsed expires_at (the
comparison itself may raise, outside any try block); then the try block
whose catch-all turns any exception into (False, "Verification failed:
...") - JSON parse, id match, signature base64 decode, inline message
construction, signature verification, and on success the status/response
update. -/
def serverVerifyResponse (nowNaive : Int) (pk : PK) (store : Option Row)
    (challenge_id : String) (rdata : Option SResp) :
    Option Row × Except PyErr (Bool × String) :=
  match store with
  | none => (store, .ok (false, "Challenge not found"))
  | some row =>
    if row.status ≠ Status.pending then
      (store, .ok (false, "Challenge has already been " ++ row.status.str))
    else
      match fromisoformat row.expiresS with
      | .error e => (store, .error e)
      | .ok ea =>
        match dtGt (Dt.naive nowNaive) ea with
        | .error e => (store, .error e)
        | .ok true =>
          (some { row with status := Status.expired }, .ok (false, "Challenge has expired"))
        | .ok false =>
          match rdata with
          | none => (store, .ok (false, "Verification failed: Invalid JSON"))
          | some resp =>
            if resp.id ≠ some challenge_id then
              (store,
                .ok (false, "Verification failed: Response ID does not match challenge ID"))
            else
              match resp.signature with
              | none =>
                (store, .ok (false, "Verification failed: argument should be bytes, not None"))
              | some SigF.bad =>
                (store, .ok (false, "Verification failed: Invalid base64"))
              | some (SigF.ok sb) =>
                if pk sb (utf8 (challenge_id ++ ":" ++ row.action ++ ":" ++ row.nonce ++ ":" ++
                    pyStr resp.response)) then
                  (some { row with
                      status := if resp.response = some "approved" then Status.approved
                        else Status.rejected
                      response := some resp
                      responseTs := some nowNaive },
                    .ok (true,
                      (if resp.response = some "approved" then Status.approved
                        else Status.rejected).str))
                else (store, .ok (false, "Verification failed: Invalid signature"))

theorem data_append (s t : String) : (s ++ t).data = s.data ++ t.data := rfl

theorem string_data_inj {s t : String} (h : s.data = t.data) : s = t := by
  cases s
  cases t
  simp_all

theorem format_message_eq_ok {i a n d : String} (h : d = "approved" ∨ d = "rejected") :
    format_message i a n d = .ok (utf8 (i ++ ":" ++ a ++ ":" ++ n ++ ":" ++ d)) := by
  unfold format_message
  rw [if_pos h]

theorem msg_id_inj {i i' a n d : String}
    (h : i ++ ":" ++ a ++ ":" ++ n ++ ":" ++ d = i' ++ ":" ++ a ++ ":" ++ n ++ ":" ++ d) :
    i = i' := by
  have hd := congrArg String.data h
  simp only [data_append, List.append_assoc] at hd
  exact string_data_inj (List.append_cancel_right hd)

theorem msg_action_inj {i a a' n d : String}
    (h : i ++ ":" ++ a ++ ":" ++ n ++ ":" ++ d = i ++ ":" ++ a' ++ ":" ++ n ++ ":" ++ d) :
    a = a' := by
  have hd := congrArg String.data h
  simp only [data_append, List.append_assoc] at hd
  have h1 := List.append_cancel_left hd
  have h2 := List.append_cancel_left h1
  exact string_data_inj (List.append_cancel_right h2)

theorem msg_nonce_inj {i a n n' d : String}
    (h : i ++ ":" ++ a ++ ":" ++ n ++ ":" ++ d = i ++ ":" ++ a ++ ":" ++ n' ++ ":" ++ d) :
    n = n' := by
  have hd := congrArg String.data h
  simp only [data_append, List.append_assoc] at hd
  have h1 := List.append_cancel_left (List.append_cancel_left hd)
  have h2 := List.append_cancel_left (List.append_cancel_left h1)
  exact string_data_inj (List.append_cancel_right h2)

theorem msg_resp_inj {i a n d d' : String}
    (h : i ++ ":" ++ a ++ ":" ++ n ++ ":" ++ d = i ++ ":" ++ a ++ ":" ++ n ++ ":" ++ d') :
    d = d' := by
  have hd := congrArg String.data h
  simp only [data_append, List.append_assoc] at hd
  have h1 := List.append_cancel_left (List.append_cancel_left hd)
  have h2 := List.append_cancel_left (List.append_cancel_left h1)
  exact string_data_inj (List.append_cancel_left (List.append_cancel_left h2))

/-- C1: for every id, action, nonce and response action (a decision, i.e.
"approved" or "rejected"), the canonical signed message is exactly the
UTF-8 encoding of "{id}:{action}:{nonce}:{responseAction}", and the message
construction used by sign_challenge and the one used by verify_response are
the identical shared function, so identical inputs give byte-identical
messages. -/
theorem canonical_message_single_source (i a n ra : String)
    (h : ra = "approved" ∨ ra = "rejected") :
    sign_message i a n ra = Except.ok (utf8 (i ++ ":" ++ a ++ ":" ++ n ++ ":" ++ ra)) ∧
    sign_message i a n ra = format_message i a n ra ∧
    verify_message i a n ra = format_message i a n ra ∧
    sign_message i a n ra = verify_message i a n ra := by
  refine ⟨?_, rfl, rfl, rfl⟩
  unfold sign_message
  exact format_message_eq_ok h

theorem canonical_message_single_source_witness :
    sign_message "cid" "unlock" "n0" "approved" =
      Except.ok (utf8 ("cid" ++ ":" ++ "unlock" ++ ":" ++ "n0" ++ ":" ++ "approved")) ∧
    sign_message "cid" "unlock" "n0" "approved" = format_message "cid" "unlock" "n0" "approved" ∧
    verify_message "cid" "unlock" "n0" "approved" =
      format_message "cid" "unlock" "n0" "approved" ∧
    sign_message "cid" "unlock" "n0" "approved" = verify_message "cid" "unlock" "n0" "approved" :=
  canonical_message_single_source "cid" "unlock" "n0" "approved" (Or.inl rfl)

/-- C7 counterexample: two distinct 4-tuples of field values that produce
byte-identical canonical messages, because the ":" joiner admits collisions
when a field itself contains ":".  This refutes the claim that no two
distinct tuples share a message. -/
theorem format_message_collision :
    format_message "a:b" "c" "n" "approved" = format_message "a" "b:c" "n" "approved" ∧
    ("a:b", "c") ≠ (("a", "b:c") : String × String) := by
  constructor
  · rfl
  · decide

/-- C7 amended: format_message is a deterministic function of exactly the
four fields, and changing any single one of the four fields while keeping
the other three fixed changes the output bytes; joint injectivity over all
four fields simultaneously fails (see format_message_collision). -/
theorem format_message_single_field_sensitive (i i' a a' n n' d d' : String)
    (hd : d = "approved" ∨ d = "rejected") (hd' : d' = "approved" ∨ d' = "rejected") :
    (i ≠ i' → format_message i a n d ≠ format_message i' a n d) ∧
    (a ≠ a' → format_message i a n d ≠ format_message i a' n d) ∧
    (n ≠ n' → format_message i a n d ≠ format_message i a n' d) ∧
    (d ≠ d' → format_message i a n d ≠ format_message i a n d') := by
  refine ⟨fun hne he => hne ?_, fun hne he => hne ?_, fun hne he => hne ?_,
    fun hne he => hne ?_⟩
  · rw [format_message_eq_ok hd, format_message_eq_ok hd] at he
    exact msg_id_inj (utf8_inj (Except.ok.inj he))
  · rw [format_message_eq_ok hd, format_message_eq_ok hd] at he
    exact msg_action_inj (utf8_inj (Except.ok.inj he))
  · rw [format_message_eq_ok hd, format_message_eq_ok hd] at he
    exact msg_nonce_inj (utf8_inj (Except.ok.inj he))
  · rw [format_message_eq_ok hd, format_message_eq_ok hd'] at he
    exact msg_resp_inj (utf8_inj (Except.ok.inj he))

theorem format_message_single_field_sensitive_witness :
    format_message "x" "act" "n0" "approved" ≠ format_message "y" "act" "n0" "approved" :=
  (format_message_single_field_sensitive "x" "y" "act" "act" "n0" "n0" "approved" "approved"
    (Or.inl rfl) (Or.inl rfl)).1 (by decide)

/-- C6 counterexample: a challenge map with all five required fields
present, an unparseable timestamp field, and a parseable offset-aware
expires_at is accepted by parse_challenge (the code never parses the
timestamp field), contradicting the claim that such an input fails with
InvalidTimestamp. -/
theorem parse_challenge_ignores_timestamp_field :
    parse_challenge 0
      { id := some "i", action := some "a", timestamp := some TsStr.invalid,
        nonce := some "n", expires_at := some (TsStr.val (Dt.aware 0)) } =
    Except.ok
      { id := some "i", action := some "a", timestamp := some TsStr.invalid,
        nonce := some "n", expires_at := some (TsStr.val (Dt.aware 0)) } := rfl

/-- C6 amended: parse_challenge fails with "Challenge missing required
field: f" naming the first absent field among id, action, timestamp, nonce,
expires_at, in that order; fails with "Invalid expires_at format" when
expires_at does not parse; raises TypeError (propagated, a different
failure) when expires_at parses to an offset-naive instant; and otherwise
returns the input unchanged - the timestamp field is never validated. -/
theorem parse_challenge_contract (now : Int) (c : CMap) :
    (c.id = none →
      parse_challenge now c =
        Except.error (PyErr.valueError "Challenge missing required field: id")) ∧
    (c.id ≠ none → c.action = none →
      parse_challenge now c =
        Except.error (PyErr.valueError "Challenge missing required field: action")) ∧
    (c.id ≠ none → c.action ≠ none → c.timestamp = none →
      parse_challenge now c =
        Except.error (PyErr.valueError "Challenge missing required field: timestamp")) ∧
    (c.id ≠ none → c.action ≠ none → c.timestamp ≠ none → c.nonce = none →
      parse_challenge now c =
        Except.error (PyErr.valueError "Challenge missing required field: nonce")) ∧
    (c.id ≠ none → c.action ≠ none → c.timestamp ≠ none → c.nonce ≠ none →
      c.expires_at = none →
      parse_challenge now c =
        Except.error (PyErr.valueError "Challenge missing required field: expires_at")) ∧
    (c.id ≠ none → c.action ≠ none → c.timestamp ≠ none → c.nonce ≠ none →
      c.expires_at = some TsStr.invalid →
      parse_challenge now c =
        Except.error
          (PyErr.valueError "Invalid expires_at format: Invalid isoformat string")) ∧
    (∀ t, c.id ≠ none → c.action ≠ none → c.timestamp ≠ none → c.nonce ≠ none →
      c.expires_at = some (TsStr.val (Dt.naive t)) →
      parse_challenge now c =
        Except.error
          (PyErr.typeError "cant compare offset-naive and offset-aware datetimes")) ∧
    (∀ t, c.id ≠ none → c.action ≠ none → c.timestamp ≠ none → c.nonce ≠ none →
      c.expires_at = some (TsStr.val (Dt.aware t)) →
      parse_challenge now c = Except.ok c) := by
  unfold parse_challenge
  refine ⟨fun h1 => ?_, fun h1 h2 => ?_, fun h1 h2 h3 => ?_, fun h1 h2 h3 h4 => ?_,
    fun h1 h2 h3 h4 h5 => ?_, fun h1 h2 h3 h4 h5 => ?_, fun t h1 h2 h3 h4 h5 => ?_,
    fun t h1 h2 h3 h4 h5 => ?_⟩ <;>
    (simp_all [Option.isNone_iff_eq_none, fromisoformat, dtGt]; try rfl)

theorem parse_challenge_contract_witness :
    parse_challenge 3
      { id := some "w", action := some "b", timestamp := some TsStr.invalid,
        nonce := some "m", expires_at := some (TsStr.val (Dt.aware 5)) } =
    Except.ok
      { id := some "w", action := some "b", timestamp := some TsStr.invalid,
        nonce := some "m", expires_at := some (TsStr.val (Dt.aware 5)) } :=
  (parse_challenge_contract 3
    { id := some "w", action := some "b", timestamp := some TsStr.invalid,
      nonce := some "m", expires_at := some (TsStr.val (Dt.aware 5)) }).2.2.2.2.2.2.2
    5 (by decide) (by decide) (by decide) (by decide) rfl

theorem parse_response_ok_self {r rr : RMap} (h : parse_response r = .ok rr) : rr = r := by
  unfold parse_response at h
  split_ifs at h
  exact (Except.ok.inj h).symm

theorem parse_response_ok_action {r rr : RMap} (h : parse_response r = .ok rr) :
    r.response.getD "" = "approved" ∨ r.response.getD "" = "rejected" := by
  unfold parse_response at h
  split_ifs at h with h1 h2 h3 h4 h5
  · exact h5

theorem verify_success_inversion {now : Int} {keySrc : Except String PK} {c : CMap} {r : RMap}
    (hsucc : (verify_response now keySrc c r).1 = true) :
    parse_response r = .ok r ∧
    verify_response now keySrc c r = (true, r.response.getD "") ∧
    (r.response.getD "" = "approved" ∨ r.response.getD "" = "rejected") := by
  rcases hbody : verifyBody now keySrc c r with e | res
  · have hvr : verify_response now keySrc c r = (false, "Verification error: " ++ pyMsg e) := by
      unfold verify_response
      rw [hbody]
    rw [hvr] at hsucc
    simp at hsucc
  · have hvr : verify_response now keySrc c r = res := by
      unfold verify_response
      rw [hbody]
    rw [hvr] at hsucc ⊢
    unfold verifyBody at hbody
    rcases hpc : parse_challenge now c with e | ch <;> simp only [hpc] at hbody
    case error => cases hbody
    rcases hpr : parse_response r with e | resp <;> simp only [hpr] at hbody
    case error => cases hbody
    have hrr := parse_response_ok_self hpr
    rw [hrr] at hpr hbody
    by_cases hid : r.id.getD "" ≠ ch.id.getD ""
    · rw [if_pos hid] at hbody
      rw [← Except.ok.inj hbody] at hsucc
      simp at hsucc
    rw [if_neg hid] at hbody
    rcases hts : timestampChecks (ch.timestamp.getD .invalid) (r.timestamp.getD .invalid) now
      with _ | m | e <;> simp only [hts] at hbody
    · rcases hea : fromisoformat (ch.expires_at.getD .invalid) with e | ea <;>
        simp only [hea] at hbody
      · cases hbody
      · rcases hgt : dtGt (Dt.aware now) ea with e | b <;> simp only [hgt] at hbody
        · cases hbody
        · rcases b
          · rcases hkey : load_public_key keySrc with e | pk <;> simp only [hkey] at hbody
            · cases hbody
            · rcases hfm : format_message (ch.id.getD "") (ch.action.getD "") (ch.nonce.getD "")
                  (r.response.getD "") with e | msg <;> simp only [hfm] at hbody
              · cases hbody
              · rcases hsig : r.signature.getD SigF.bad with _ | sb <;> simp only [hsig] at hbody
                · rw [← Except.ok.inj hbody] at hsucc
                  simp at hsucc
                · by_cases hpk : pk sb msg
                  · rw [if_pos hpk] at hbody
                    rw [← Except.ok.inj hbody]
                    exact ⟨by rw [hrr], rfl, parse_response_ok_action hpr⟩
                  · rw [if_neg hpk] at hbody
                    rw [← Except.ok.inj hbody] at hsucc
                    simp at hsucc
          · rw [← Except.ok.inj hbody] at hsucc
            simp at hsucc
    · rw [← Except.ok.inj hbody] at hsucc
      simp at hsucc
    · cases hbody

/-- C3: for a decodable challenge and response, verify_response performs
its checks in the fixed order id match, timestamp block, expiry, signature
decoding, cryptographic verification, short-circuiting on the first
failure.  In particular an expired challenge reports "EXPIRED" for any key
source and any signature (conjunct 3: the expiry check precedes key
loading, signature decoding and verification, and follows the timestamp
checks), a bad signature encoding is only reported once the challenge is
unexpired, and cryptographic verification is reached last. -/
theorem verify_checks_order (now : Int) (keySrc : Except String PK) (c : CMap) (r : RMap)
    (hc : parse_challenge now c = .ok c) (hr : parse_response r = .ok r) :
    (r.id.getD "" ≠ c.id.getD "" →
      verify_response now keySrc c r = (false, "Response ID does not match challenge ID")) ∧
    (∀ m, r.id.getD "" = c.id.getD "" →
      timestampChecks (c.timestamp.getD .invalid) (r.timestamp.getD .invalid) now =
        TsCheck.fail m →
      verify_response now keySrc c r = (false, m)) ∧
    (∀ t, r.id.getD "" = c.id.getD "" →
      timestampChecks (c.timestamp.getD .invalid) (r.timestamp.getD .invalid) now =
        TsCheck.pass →
      c.expires_at = some (TsStr.val (Dt.aware t)) → now > t →
      verify_response now keySrc c r = (false, "EXPIRED")) ∧
    (∀ t pk, r.id.getD "" = c.id.getD "" →
      timestampChecks (c.timestamp.getD .invalid) (r.timestamp.getD .invalid) now =
        TsCheck.pass →
      c.expires_at = some (TsStr.val (Dt.aware t)) → now ≤ t → keySrc = .ok pk →
      r.signature = some SigF.bad →
      verify_response now keySrc c r = (false, "Invalid signature encoding: Invalid base64")) ∧
    (∀ t pk sb, r.id.getD "" = c.id.getD "" →
      timestampChecks (c.timestamp.getD .invalid) (r.timestamp.getD .invalid) now =
        TsCheck.pass →
      c.expires_at = some (TsStr.val (Dt.aware t)) → now ≤ t → keySrc = .ok pk →
      r.signature = some (SigF.ok sb) →
      verify_response now keySrc c r =
        (if pk sb (utf8 (c.id.getD "" ++ ":" ++ c.action.getD "" ++ ":" ++ c.nonce.getD "" ++
            ":" ++ r.response.getD "")) then (true, r.response.getD "")
          else (false, "Invalid signature"))) := by
  refine ⟨fun hid => ?_, fun m hid hts => ?_, fun t hid hts hexp hlate => ?_,
    fun t pk hid hts hexp hok hkey hsig => ?_, fun t pk sb hid hts hexp hok hkey hsig => ?_⟩
  · simp only [verify_response, verifyBody, hc, hr]
    rw [if_pos hid]
  · simp only [verify_response, verifyBody, hc, hr, hts]
    rw [if_neg (by simp [hid])]
  · have hg : dtGt (Dt.aware now) (Dt.aware t) = .ok true := by
      simp only [dtGt]
      congr 1
      simp
      omega
    simp only [verify_response, verifyBody, hc, hr, hts, hexp, Option.getD_some,
      fromisoformat, hg]
    rw [if_neg (by simp [hid])]
  · have hg : dtGt (Dt.aware now) (Dt.aware t) = .ok false := by
      simp only [dtGt]
      congr 1
      simp
      omega
    simp only [verify_response, verifyBody, hc, hr, hts, hexp, Option.getD_some,
      fromisoformat, hg, hkey, load_public_key,
      format_message_eq_ok (parse_response_ok_action hr), hsig]
    rw [if_neg (by simp [hid])]
  · have hg : dtGt (Dt.aware now) (Dt.aware t) = .ok false := by
      simp only [dtGt]
      congr 1
      simp
      omega
    simp only [verify_response, verifyBody, hc, hr, hts, hexp, Option.getD_some,
      fromisoformat, hg, hkey, load_public_key,
      format_message_eq_ok (parse_response_ok_action hr), hsig]
    rw [if_neg (by simp [hid])]
    cases hpk : pk sb (utf8 (c.id.getD "" ++ ":" ++ c.action.getD "" ++ ":" ++
        c.nonce.getD "" ++ ":" ++ r.response.getD "")) <;> simp [hpk]

theorem verify_checks_order_witness :
    verify_response 11 (Except.error "unreadable")
      { id := some "x", action := some "act", timestamp := some (TsStr.val (Dt.aware 0)),
        nonce := some "n", expires_at := some (TsStr.val (Dt.aware 10)) }
      { id := some "x", response := some "approved",
        timestamp := some (TsStr.val (Dt.aware 5)), signature := some SigF.bad } =
      (false, "EXPIRED") :=
  (verify_checks_order 11 (Except.error "unreadable")
    { id := some "x", action := some "act", timestamp := some (TsStr.val (Dt.aware 0)),
      nonce := some "n", expires_at := some (TsStr.val (Dt.aware 10)) }
    { id := some "x", response := some "approved",
      timestamp := some (TsStr.val (Dt.aware 5)), signature := some SigF.bad }
    rfl rfl).2.2.1 10 rfl rfl rfl (by decide)

/-- C4: verify_response returns ordinary protocol failures as pairs and,
whenever its result is successful, the status component is exactly the
decision string response.response of the (successfully parsed) response,
which is "approved" or "rejected"; conversely, when every check passes the
result is (true, response.response), so a cryptographically valid rejection
also yields success true.  Rejection paths return pairs rather than raising
by construction of the embedding, which mirrors the catch-all handler. -/
theorem verify_outcome_contract (now : Int) (keySrc : Except String PK) (c : CMap) (r : RMap) :
    ((verify_response now keySrc c r).1 = true →
      parse_response r = .ok r ∧
      verify_response now keySrc c r = (true, r.response.getD "") ∧
      (r.response.getD "" = "approved" ∨ r.response.getD "" = "rejected")) ∧
    (∀ t pk sb, parse_challenge now c = .ok c → parse_response r = .ok r →
      r.id.getD "" = c.id.getD "" →
      timestampChecks (c.timestamp.getD .invalid) (r.timestamp.getD .invalid) now =
        TsCheck.pass →
      c.expires_at = some (TsStr.val (Dt.aware t)) → now ≤ t → keySrc = .ok pk →
      r.signature = some (SigF.ok sb) →
      pk sb (utf8 (c.id.getD "" ++ ":" ++ c.action.getD "" ++ ":" ++ c.nonce.getD "" ++
        ":" ++ r.response.getD "")) = true →
      verify_response now keySrc c r = (true, r.response.getD "")) := by
  constructor
  · exact fun hsucc => verify_success_inversion hsucc
  · intro t pk sb hc hr hid hts hexp hok hkey hsig hpk
    have hg : dtGt (Dt.aware now) (Dt.aware t) = .ok false := by
      simp only [dtGt]
      congr 1
      simp
      omega
    simp only [verify_response, verifyBody, hc, hr, hts, hexp, Option.getD_some,
      fromisoformat, hg, hkey, load_public_key,
      format_message_eq_ok (parse_response_ok_action hr), hsig]
    rw [if_neg (by simp [hid]), if_pos hpk]

theorem verify_outcome_contract_witness :
    verify_response 5 (Except.ok (fun _ _ => true))
      { id := some "x", action := some "act", timestamp := some (TsStr.val (Dt.aware 0)),
        nonce := some "n", expires_at := some (TsStr.val (Dt.aware 10)) }
      { id := some "x", response := some "rejected",
        timestamp := some (TsStr.val (Dt.aware 5)), signature := some (SigF.ok [9]) } =
      (true, "rejected") :=
  (verify_outcome_contract 5 (Except.ok (fun _ _ => true))
    { id := some "x", action := some "act", timestamp := some (TsStr.val (Dt.aware 0)),
      nonce := some "n", expires_at := some (TsStr.val (Dt.aware 10)) }
    { id := some "x", response := some "rejected",
      timestamp := some (TsStr.val (Dt.aware 5)), signature := some (SigF.ok [9]) }).2
    10 (fun _ _ => true) [9] rfl rfl rfl rfl rfl (by decide) rfl rfl rfl

/-- C8 counterexample: a challenge whose expires_at is 1 second in the past
(expiry instant 10, verification at instant 11) does not yield
(false, "EXPIRED") for a response whose id does not match: the id check
runs first and its failure is reported instead.  This refutes the claim
that such a challenge yields the expiry failure for every response. -/
theorem expiry_boundary_counterexample :
    verify_response 11 (Except.ok (fun _ _ => true))
      { id := some "x", action := some "act", timestamp := some (TsStr.val (Dt.aware 0)),
        nonce := some "n", expires_at := some (TsStr.val (Dt.aware 10)) }
      { id := some "y", response := some "approved",
        timestamp := some (TsStr.val (Dt.aware 5)), signature := some (SigF.ok [1]) } =
      (false, "Response ID does not match challenge ID") ∧
    ((false, "Response ID does not match challenge ID") : Bool × String) ≠
      (false, "EXPIRED") := by
  constructor
  · rfl
  · decide

/-- C8 amended: for a response that passes the id and timestamp checks, a
challenge whose expires_at is 1 second in the past at verification time
yields (false, "EXPIRED"), and a challenge whose expires_at is 1 second in
the future, presented with a validly signed response passing the other
checks, yields (true, decision). -/
theorem expiry_boundary (now t : Int) (keySrc : Except String PK) (c : CMap) (r : RMap)
    (hc : parse_challenge now c = .ok c) (hr : parse_response r = .ok r)
    (hid : r.id.getD "" = c.id.getD "")
    (hts : timestampChecks (c.timestamp.getD .invalid) (r.timestamp.getD .invalid) now =
      TsCheck.pass)
    (hexp : c.expires_at = some (TsStr.val (Dt.aware t))) :
    (now = t + 1 → verify_response now keySrc c r = (false, "EXPIRED")) ∧
    (∀ pk sb, t = now + 1 → keySrc = .ok pk → r.signature = some (SigF.ok sb) →
      pk sb (utf8 (c.id.getD "" ++ ":" ++ c.action.getD "" ++ ":" ++ c.nonce.getD "" ++
        ":" ++ r.response.getD "")) = true →
      verify_response now keySrc c r = (true, r.response.getD "")) := by
  constructor
  · intro hnow
    have hg : dtGt (Dt.aware now) (Dt.aware t) = .ok true := by
      simp only [dtGt]
      congr 1
      simp
      omega
    simp only [verify_response, verifyBody, hc, hr, hts, hexp, Option.getD_some,
      fromisoformat, hg]
    rw [if_neg (by simp [hid])]
  · intro pk sb hnow hkey hsig hpk
    have hg : dtGt (Dt.aware now) (Dt.aware t) = .ok false := by
      simp only [dtGt]
      congr 1
      simp
      omega
    simp only [verify_response, verifyBody, hc, hr, hts, hexp, Option.getD_some,
      fromisoformat, hg, hkey, load_public_key,
      format_message_eq_ok (parse_response_ok_action hr), hsig]
    rw [if_neg (by simp [hid]), if_pos hpk]

theorem expiry_boundary_witness :
    verify_response 11 (Except.ok (fun _ _ => true))
      { id := some "x", action := some "act", timestamp := some (TsStr.val (Dt.aware 0)),
        nonce := some "n", expires_at := some (TsStr.val (Dt.aware 10)) }
      { id := some "x", response := some "approved",
        timestamp := some (TsStr.val (Dt.aware 5)), signature := some (SigF.ok [7]) } =
      (false, "EXPIRED") ∧
    verify_response 9 (Except.ok (fun _ _ => true))
      { id := some "x", action := some "act", timestamp := some (TsStr.val (Dt.aware 0)),
        nonce := some "n", expires_at := some (TsStr.val (Dt.aware 10)) }
      { id := some "x", response := some "approved",
        timestamp := some (TsStr.val (Dt.aware 5)), signature := some (SigF.ok [7]) } =
      (true, "approved") :=
  ⟨(expiry_boundary 11 10 (Except.ok (fun _ _ => true))
      { id := some "x", action := some "act", timestamp := some (TsStr.val (Dt.aware 0)),
        nonce := some "n", expires_at := some (TsStr.val (Dt.aware 10)) }
      { id := some "x", response := some "approved",
        timestamp := some (TsStr.val (Dt.aware 5)), signature := some (SigF.ok [7]) }
      rfl rfl rfl rfl rfl).1 rfl,
    (expiry_boundary 9 10 (Except.ok (fun _ _ => true))
      { id := some "x", action := some "act", timestamp := some (TsStr.val (Dt.aware 0)),
        nonce := some "n", expires_at := some (TsStr.val (Dt.aware 10)) }
      { id := some "x", response := some "approved",
        timestamp := some (TsStr.val (Dt.aware 5)), signature := some (SigF.ok [7]) }
      rfl rfl rfl rfl rfl).2 (fun _ _ => true) [7] rfl rfl rfl rfl⟩

/-- C9: verify_response maps every exception of its body into a
(false, "Verification error: ...") return value: a challenge-parse
exception (including the uncaught TypeError from a timezone-naive
expires_at), a response-parse exception, a TypeError escaping the timestamp
block (naive/aware comparison), and a key-loading failure reached after the
expiry check all produce such a pair rather than propagating; by
construction of the embedding the function is total, mirroring the
catch-all except handler. -/
theorem verify_total_contract (now : Int) (keySrc : Except String PK) (c : CMap) (r : RMap) :
    (∀ e, parse_challenge now c = .error e →
      verify_response now keySrc c r = (false, "Verification error: " ++ pyMsg e)) ∧
    (∀ e, parse_challenge now c = .ok c → parse_response r = .error e →
      verify_response now keySrc c r = (false, "Verification error: " ++ pyMsg e)) ∧
    (∀ e, parse_challenge now c = .ok c → parse_response r = .ok r →
      r.id.getD "" = c.id.getD "" →
      timestampChecks (c.timestamp.getD .invalid) (r.timestamp.getD .invalid) now =
        TsCheck.raise e →
      verify_response now keySrc c r = (false, "Verification error: " ++ pyMsg e)) ∧
    (∀ t m, parse_challenge now c = .ok c → parse_response r = .ok r →
      r.id.getD "" = c.id.getD "" →
      timestampChecks (c.timestamp.getD .invalid) (r.timestamp.getD .invalid) now =
        TsCheck.pass →
      c.expires_at = some (TsStr.val (Dt.aware t)) → now ≤ t → keySrc = .error m →
      verify_response now keySrc c r =
        (false, "Verification error: Error loading public key: " ++ m)) := by
  refine ⟨fun e hpc => ?_, fun e hc hpr => ?_, fun e hc hr hid hts => ?_,
    fun t m hc hr hid hts hexp hok hkey => ?_⟩
  · simp only [verify_response, verifyBody, hpc]
  · simp only [verify_response, verifyBody, hc, hpr]
  · simp only [verify_response, verifyBody, hc, hr, hts]
    rw [if_neg (by simp [hid])]
  · have hg : dtGt (Dt.aware now) (Dt.aware t) = .ok false := by
      simp only [dtGt]
      congr 1
      simp
      omega
    simp only [verify_response, verifyBody, hc, hr, hts, hexp, Option.getD_some,
      fromisoformat, hg, hkey, load_public_key]
    rw [if_neg (by simp [hid])]
    rfl

theorem verify_total_contract_witness :
    verify_response 5 (Except.error "No such file or directory")
      { id := some "x", action := some "act", timestamp := some (TsStr.val (Dt.aware 0)),
        nonce := some "n", expires_at := some (TsStr.val (Dt.aware 10)) }
      { id := some "x", response := some "approved",
        timestamp := some (TsStr.val (Dt.aware 5)), signature := some (SigF.ok [1]) } =
      (false, "Verification error: Error loading public key: No such file or directory") :=
  (verify_total_contract 5 (Except.error "No such file or directory")
    { id := some "x", action := some "act", timestamp := some (TsStr.val (Dt.aware 0)),
      nonce := some "n", expires_at := some (TsStr.val (Dt.aware 10)) }
    { id := some "x", response := some "approved",
      timestamp := some (TsStr.val (Dt.aware 5)), signature := some (SigF.ok [1]) }).2.2.2
    10 "No such file or directory" rfl rfl rfl rfl rfl (by decide) rfl

/-- C2: evaluation of MfaServer.verify_response at the claimed scenario.
For a pending, unexpired challenge row created by generate_challenge, every
transition attempt with a valid signature raises TypeError at the expiry
comparison (offset-naive datetime.utcnow() ordered against the offset-aware
parsed expires_at) before any status read-modify-write: two successive
attempts both escape with the exception, zero attempts return true, and the
row never leaves pending - contradicting the claim that exactly one of N
attempts returns true and performs the terminal transition. -/
theorem server_transition_attempts_raise :
    serverVerifyResponse 30 (fun _ _ => true) (some (generatedRow "unlock" "n1" 0)) "cid"
      (some { id := some "cid", response := some "approved", signature := some (SigF.ok [2]) }) =
      (some (generatedRow "unlock" "n1" 0),
        Except.error (PyErr.typeError "cant compare offset-naive and offset-aware datetimes")) ∧
    serverVerifyResponse 31 (fun _ _ => true) (some (generatedRow "unlock" "n1" 0)) "cid"
      (some { id := some "cid", response := some "rejected", signature := some (SigF.ok [3]) }) =
      (some (generatedRow "unlock" "n1" 0),
        Except.error (PyErr.typeError "cant compare offset-naive and offset-aware datetimes")) := by
  constructor
  · rfl
  · rfl

/-- C5: evaluation of MfaServer.verify_response on the two paths the claim
describes.  The already-terminal path does behave as claimed: a non-pending
row fails with "Challenge has already been ..." before the expiry re-check
and before any signature work, and the row is unchanged.  But the expiry
path is broken: a pending row whose expiry has passed (created at 0 with 60
second expiry, verified at 100) raises TypeError at the naive/aware expiry
comparison instead of being marked expired, so the claimed first
post-expiry marking never happens. -/
theorem server_terminal_before_expiry :
    serverVerifyResponse 100 (fun _ _ => true)
      (some { generatedRow "unlock" "n0" 0 with status := Status.approved }) "cid"
      (some { id := some "cid", response := some "approved", signature := some (SigF.ok [1]) }) =
      (some { generatedRow "unlock" "n0" 0 with status := Status.approved },
        Except.ok (false, "Challenge has already been approved")) ∧
    serverVerifyResponse 100 (fun _ _ => true)
      (some { generatedRow "unlock" "n0" 0 with status := Status.expired }) "cid"
      (some { id := some "cid", response := some "approved", signature := some (SigF.ok [1]) }) =
      (some { generatedRow "unlock" "n0" 0 with status := Status.expired },
        Except.ok (false, "Challenge has already been expired")) ∧
    serverVerifyResponse 100 (fun _ _ => true) (some (generatedRow "unlock" "n0" 0)) "cid"
      (some { id := some "cid", response := some "approved", signature := some (SigF.ok [1]) }) =
      (some (generatedRow "unlock" "n0" 0),
        Except.error (PyErr.typeError "cant compare offset-naive and offset-aware datetimes")) := by
  refine ⟨rfl, rfl, rfl⟩

/-- C10: evaluation of MfaServer.verify_response at the claimed scenario.
A failing attempt (mismatched response id) against a pending challenge
whose expiry has not passed does leave the stored row unchanged, but only
because the call raises TypeError at the naive/aware expiry comparison
before even reaching the id, decoding or signature checks - and the
subsequent valid attempt that the claim says can still succeed raises the
same TypeError instead of succeeding. -/
theorem server_failed_attempt_leaves_record :
    serverVerifyResponse 30 (fun _ _ => false) (some (generatedRow "unlock" "n2" 0)) "cid"
      (some { id := some "other", response := some "approved", signature := some SigF.bad }) =
      (some (generatedRow "unlock" "n2" 0),
        Except.error (PyErr.typeError "cant compare offset-naive and offset-aware datetimes")) ∧
    serverVerifyResponse 31 (fun _ _ => true) (some (generatedRow "unlock" "n2" 0)) "cid"
      (some { id := some "cid", response := some "approved", signature := some (SigF.ok [4]) }) =
      (some (generatedRow "unlock" "n2" 0),
        Except.error (PyErr.typeError "cant compare offset-naive and offset-aware datetimes")) := by
  constructor
  · rfl
  · rfl
